import Mathlib

/-!
Verification of the testrigor-ci-tool lifecycle logic.

This file gives a shallow embedding of the status parsing, status-code
classification, polling loops, report retrieval, branch-info synthesis and
option validation of the repository, and proves or refutes the frozen claims
about them.

Conventions of the embedding:
* Go `int` counters coming from JSON are modelled as `Int`; loop indices and
  retry budgets, which are non-negative throughout the source, as `Nat`.
* A JSON body handed to `json.Unmarshal` is modelled as a `RespBody`: the raw
  text together with the unmarshal result (`Except.error` carries the
  unmarshal error text, `Except.ok` the top-level object's fields in order).
* The polling loops interact with the remote service only through
  `GetTestStatus` / `GetJUnitReport`; a run of a loop is modelled by the list
  of responses those calls would return, one list entry per call, and the
  loop also records the API calls it performs (`ApiCall`), so that the
  deferred cancellation of `WaitForTestCompletion` is visible in the trace.
* Wall-clock sleeping and printing are dropped; they do not affect any claim.
-/

/-- A JSON value as produced by Go `json.Unmarshal` into `interface{}`:
numbers (only integral ones occur in the claims), strings, booleans, arrays
and objects. Objects keep their fields as an association list. -/
inductive JsonVal where
  | num (n : Int)
  | str (s : String)
  | bool (b : Bool)
  | null
  | arr (xs : List JsonVal)
  | obj (fields : List (String × JsonVal))

/-- A raw HTTP response body: the raw bytes (as a string) together with the
result of `json.Unmarshal` into `map[string]interface{}`. -/
structure RespBody where
  raw : String
  json : Except String (List (String × JsonVal))

/-- internal/api/types: `TestResults` struct (Total, InQueue, InProgress,
Failed, Passed, Canceled, NotStarted, Crash). -/
structure TestResults where
  total : Int
  inQueue : Int
  inProgress : Int
  failed : Int
  passed : Int
  canceled : Int
  notStarted : Int
  crash : Int
deriving DecidableEq

/-- internal/api/types: `TestError` struct. -/
structure TestError where
  category : String
  error : String
  occurrences : Int
  severity : String
  detailsURL : String
deriving DecidableEq

/-- internal/api/types: `TestStatus` struct. -/
structure TestStatus where
  status : String
  detailsURL : String
  taskID : String
  errors : List TestError
  results : TestResults
  httpStatusCode : Nat
deriving DecidableEq

/-- internal/api/types: `TestRunOptions` struct. -/
structure TestRunOptions where
  testCaseUUIDs : List String
  labels : List String
  excludedLabels : List String
  url : String
  branchName : String
  commitHash : String
  customName : String
  forceCancelPreviousTesting : Bool
  makeXrayReports : Bool
deriving DecidableEq

/-- The zero value of `TestResults`. -/
def emptyResults : TestResults := ⟨0, 0, 0, 0, 0, 0, 0, 0⟩

/-- The zero value of `TestStatus`. -/
def emptyTestStatus : TestStatus :=
  { status := "", detailsURL := "", taskID := "", errors := [],
    results := emptyResults, httpStatusCode := 0 }

/-- Boolean check that one character list starts with another (the pattern
comes first). Helper for `charsContain`. -/
def charsStartWith : List Char → List Char → Bool
  | [], _ => true
  | _ :: _, [] => false
  | p :: ps, c :: cs => p == c && charsStartWith ps cs

/-- Boolean substring search on character lists (pattern first). -/
def charsContain (pat : List Char) : List Char → Bool
  | [] => pat.isEmpty
  | c :: cs => charsStartWith pat (c :: cs) || charsContain pat cs

/-- Go `strings.Contains(s, pat)`. -/
def strContains (s pat : String) : Bool := charsContain pat.toList s.toList

/-- Go type assertion `m[key].(string)` with `getString` fallback `""`
(internal/api/utils `GetString` and both client `getString` helpers). -/
def getStrJ (m : List (String × JsonVal)) (k : String) : String :=
  match List.lookup k m with
  | some (JsonVal.str s) => s
  | _ => ""

/-- `getInt` of the status interpreter and of internal/api/utils: accepts a
JSON number (Go `float64`/`int`), anything else is 0. -/
def getIntJ (m : List (String × JsonVal)) (k : String) : Int :=
  match List.lookup k m with
  | some (JsonVal.num n) => n
  | _ => 0

/-- `getInt` of internal/api/client/testrigor_client.go: additionally accepts
a string via `strconv.Atoi`, whose error is ignored (yielding 0). -/
def getIntClient (m : List (String × JsonVal)) (k : String) : Int :=
  match List.lookup k m with
  | some (JsonVal.num n) => n
  | some (JsonVal.str s) => (s.toInt?).getD 0
  | _ => 0

/-- internal/api/client/testrigor_client.go `parseStatusBody`, results
section (lines 310-319): every logical counter is the SUM of all recognized
spellings of its field name. -/
def parseResultsClient (results : List (String × JsonVal)) : TestResults :=
  { total := getIntClient results "Total" + getIntClient results "total",
    inQueue := getIntClient results "In queue" + getIntClient results "inQueue"
      + getIntClient results "queued",
    inProgress := getIntClient results "In progress" + getIntClient results "inProgress"
      + getIntClient results "running",
    failed := getIntClient results "Failed" + getIntClient results "failed",
    passed := getIntClient results "Passed" + getIntClient results "passed",
    canceled := getIntClient results "Canceled" + getIntClient results "canceled"
      + getIntClient results "cancelled",
    notStarted := getIntClient results "Not started" + getIntClient results "notStarted",
    crash := getIntClient results "Crash" + getIntClient results "crash" }

/-- internal/api/client/testrigor_client.go `parseStatusBody`, errors
section: only object entries are collected. -/
def parseErrorsClient : List JsonVal → List TestError
  | [] => []
  | JsonVal.obj m :: rest =>
    { category := getStrJ m "category", error := getStrJ m "error",
      severity := getStrJ m "severity", occurrences := getIntClient m "occurrences",
      detailsURL := getStrJ m "detailsUrl" } :: parseErrorsClient rest
  | _ :: rest => parseErrorsClient rest

/-- internal/api/client/testrigor_client.go `parseStatusBody`: overrides the
status/detailsUrl/taskId fields from the body when present, parses
`overallResults` via `parseResultsClient` and appends parsed errors. A body
that fails to unmarshal leaves the status untouched. -/
def parseStatusBody (body : RespBody) (status : TestStatus) : TestStatus :=
  match body.json with
  | Except.error _ => status
  | Except.ok data =>
    let status := match List.lookup "status" data with
      | some (JsonVal.str s) => { status with status := s }
      | _ => status
    let status := match List.lookup "detailsUrl" data with
      | some (JsonVal.str s) => { status with detailsURL := s }
      | _ => status
    let status := match List.lookup "taskId" data with
      | some (JsonVal.str s) => { status with taskID := s }
      | _ => status
    let status := match List.lookup "overallResults" data with
      | some (JsonVal.obj results) => { status with results := parseResultsClient results }
      | _ => status
    match List.lookup "errors" data with
    | some (JsonVal.arr errs) => { status with errors := status.errors ++ parseErrorsClient errs }
    | _ => status

/-- internal/api/client/testrigor_client.go `parseAPIError`: the `message`
field when the body is a JSON object carrying one, the raw body otherwise. -/
def parseAPIErrorClient (statusCode : Nat) (body : RespBody) : String :=
  match body.json with
  | Except.ok data =>
    match List.lookup "message" data with
    | some (JsonVal.str msg) => s!"API error (status {statusCode}): {msg}"
    | _ =>
      let raw := body.raw
      s!"API error (status {statusCode}): {raw}"
  | Except.error _ =>
    let raw := body.raw
    s!"API error (status {statusCode}): {raw}"

/-- internal/api/client/testrigor_client.go `parseTestStatus` (lines
251-274): 404 is rejected as "test not found or not ready" WITHOUT looking at
the body; the known 4xx/5xx codes become API errors; all other codes seed a
code-specific status string and then parse the body. -/
def parseTestStatusClient (statusCode : Nat) (body : RespBody) : Except String TestStatus :=
  if statusCode = 404 then Except.error "test not found or not ready"
  else if statusCode = 400 ∨ statusCode = 401 ∨ statusCode = 403 ∨ statusCode = 500
      ∨ statusCode = 502 ∨ statusCode = 503 ∨ statusCode = 504 then
    Except.error (parseAPIErrorClient statusCode body)
  else
    let initial : String :=
      if statusCode = 200 then "completed"
      else if statusCode = 227 then "new"
      else if statusCode = 228 then "in_progress"
      else if statusCode = 230 then "failed"
      else ""
    Except.ok (parseStatusBody body
      { emptyTestStatus with status := initial, httpStatusCode := statusCode })

/-- First string entry of a JSON `errors` array containing `"CRASH:"`
(the loop inside `StatusInterpreter.InterpretResponse`, 404 case). -/
def firstCrashString : List JsonVal → Option String
  | [] => none
  | JsonVal.str s :: rest =>
    if strContains s "CRASH:" then some s else firstCrashString rest
  | _ :: rest => firstCrashString rest

/-- The crash probe `InterpretResponse` runs on a 404 body: the body must be
a JSON object with a non-empty `errors` array holding a string entry that
contains `"CRASH:"`. -/
def crashFrom404 (body : RespBody) : Option String :=
  match body.json with
  | Except.error _ => none
  | Except.ok data =>
    match List.lookup "errors" data with
    | some (JsonVal.arr errs) => if errs.isEmpty then none else firstCrashString errs
    | _ => none

/-- `StatusInterpreter.extractErrorDetails`: the string entries of the
`errors` array joined with "; ". -/
def extractErrorDetails (data : List (String × JsonVal)) : String :=
  match List.lookup "errors" data with
  | some (JsonVal.arr errs) =>
    if errs.isEmpty then ""
    else String.intercalate "; "
      (errs.foldr (fun j acc => match j with | JsonVal.str s => s :: acc | _ => acc) [])
  | _ => ""

/-- `StatusInterpreter.createAPIError`: the standardized API error, built
from the `message` field and joined error details, with the raw body as
fallback. Returns the (bytes, error) pair of the Go function. -/
def createAPIError (statusCode : Nat) (body : RespBody) : Option RespBody × Option String :=
  match body.json with
  | Except.error _ =>
    let raw := body.raw
    (none, some s!"API error (status {statusCode}): {raw}")
  | Except.ok data =>
    let msg := getStrJ data "message"
    let details := extractErrorDetails data
    if msg = "" ∧ details = "" then
      let raw := body.raw
      (none, some s!"API error (status {statusCode}): {raw}")
    else (none, some s!"API error (status {statusCode}): {msg}, errors: {details}")

/-- `StatusInterpreter.InterpretResponse`: classifies a (status code, body)
pair. 200 passes the body through; 227/228 return the body with a
"status NNN" error; 230 returns "test failed"; 404 inspects the body for a
CRASH marker before falling back to an API error; the known 4xx/5xx codes
become API errors; anything else is an "unexpected status code" error. -/
def interpretResponse (statusCode : Nat) (body : RespBody) : Option RespBody × Option String :=
  if statusCode = 200 then (some body, none)
  else if statusCode = 227 ∨ statusCode = 228 then (some body, some s!"status {statusCode}")
  else if statusCode = 230 then (some body, some "test failed")
  else if statusCode = 404 then
    match crashFrom404 body with
    | some errStr => (some body, some ("test crashed: " ++ errStr))
    | none => createAPIError statusCode body
  else if statusCode = 400 ∨ statusCode = 401 ∨ statusCode = 403 ∨ statusCode = 500
      ∨ statusCode = 502 ∨ statusCode = 503 ∨ statusCode = 504 then
    createAPIError statusCode body
  else
    match body.json with
    | Except.ok data =>
      match List.lookup "message" data with
      | some (JsonVal.str msg) => (none, some s!"unexpected status code: {statusCode}, message: {msg}")
      | _ => (none, some s!"unexpected status code: {statusCode}")
    | Except.error _ => (none, some s!"unexpected status code: {statusCode}")

/-- `StatusInterpreter.ParseTestStatus`, results section (lines 396-407):
each logical counter is read from exactly one canonical field name. -/
def parseResultsSI (m : List (String × JsonVal)) : TestResults :=
  { total := getIntJ m "Total", inQueue := getIntJ m "In queue",
    inProgress := getIntJ m "In progress", failed := getIntJ m "Failed",
    passed := getIntJ m "Passed", canceled := getIntJ m "Canceled",
    notStarted := getIntJ m "Not started", crash := getIntJ m "Crash" }

/-- `StatusInterpreter.ParseTestStatus`, errors section: object entries keep
their fields, bare string entries are normalized to a CRASH/BLOCKER error
with occurrence count 1. -/
def parseErrorsSI : List JsonVal → List TestError
  | [] => []
  | JsonVal.obj m :: rest =>
    { category := getStrJ m "category", error := getStrJ m "error",
      occurrences := getIntJ m "occurrences", severity := getStrJ m "severity",
      detailsURL := getStrJ m "detailsUrl" } :: parseErrorsSI rest
  | JsonVal.str s :: rest =>
    { category := "CRASH", error := s, occurrences := 1,
      severity := "BLOCKER", detailsURL := "" } :: parseErrorsSI rest
  | _ :: rest => parseErrorsSI rest

/-- Task id extraction of `ParseTestStatus`: last component of a non-empty
details URL split on "/". -/
def taskIDFromDetailsURL (detailsURL : String) : String :=
  if detailsURL = "" then ""
  else ((detailsURL.splitOn "/").getLast?).getD ""

/-- `StatusInterpreter.ParseTestStatus` (lines 349-426): builds the
`TestStatus` snapshot from the body and returns the accompanying error: a
parse failure, or a "test crashed" error when some parsed error message
contains the CRASH marker. Mirrors the Go pair (status, err). -/
def parseTestStatusSI (statusCode : Nat) (body : RespBody) : Option TestStatus × Option String :=
  match body.json with
  | Except.error e => (none, some ("error parsing response: " ++ e))
  | Except.ok result =>
    let status := getStrJ result "status"
    let detailsURL := getStrJ result "detailsUrl"
    let taskID := taskIDFromDetailsURL detailsURL
    let errors := match List.lookup "errors" result with
      | some (JsonVal.arr l) => parseErrorsSI l
      | _ => []
    let results := match List.lookup "overallResults" result with
      | some (JsonVal.obj m) => parseResultsSI m
      | _ => emptyResults
    let testStatus : TestStatus :=
      ⟨status, detailsURL, taskID, errors, results, statusCode⟩
    match errors.find? (fun e => strContains e.error "CRASH:") with
    | some e => (some testStatus, some ("test crashed: " ++ e.error))
    | none => (some testStatus, none)

/-- internal/api/utils `CheckTestCompletion` (lines 91-102): all tests are
finished when the total is known (> 0) and nothing is queued, in progress or
not started. Looks only at counts, never at the status string. -/
def checkTestCompletion (status : TestStatus) : Bool :=
  status.results.total > 0 && status.results.inQueue == 0
    && status.results.inProgress == 0 && status.results.notStarted == 0

/-- Go `strings.ToLower` restricted to ASCII, which is all the status
strings use (character-list form of `String.toLower`, kept executable for
the kernel). -/
def toLowerStr (s : String) : String := String.mk (s.toList.map Char.toLower)

/-- internal/api/types `TestStatus.IsComplete`: completion decided purely
from the lower-cased status string. -/
def isComplete (ts : TestStatus) : Bool :=
  let l := toLowerStr ts.status
  l == "completed" || l == "failed" || l == "error" || l == "cancelled" || l == "canceled"

/-- internal/api/types `TestStatus.HasCrashes`. -/
def hasCrashes (ts : TestStatus) : Bool := ts.results.crash > 0

/-- internal/api/types `TestStatus.IsInProgress`. -/
def isInProgress (ts : TestStatus) : Bool :=
  ts.status == "in_progress" || ts.httpStatusCode == 227 || ts.httpStatusCode == 228

/-- The error message of internal/api/utils `HandleStatusCheckError` at the
consecutive-error threshold. -/
def consecErrMsg (n : Int) (e : String) : String :=
  s!"received {n} consecutive errors while checking test status: {e}"

/-- Result triple of `HandleStatusCheckError`: the (shouldContinue, error)
return values plus the final value of the `*consecutiveErrors` counter. -/
structure HSCEResult where
  shouldContinue : Bool
  errOut : Option String
  counter : Int
deriving DecidableEq

/-- internal/api/utils `HandleStatusCheckError` (lines 67-87): an error
mentioning the in-progress transport codes ("status 227"/"status 228")
INCREMENTS the consecutive-error counter and keeps polling below the
threshold; a "test failed"/"test crashed:" error and any other error abort
immediately, leaving the counter untouched. -/
def handleStatusCheckError (e : String) (consecutiveErrors maxConsecutiveErrors : Int) :
    HSCEResult :=
  if strContains e "status 227" || strContains e "status 228" then
    let c := consecutiveErrors + 1
    if c ≥ maxConsecutiveErrors then ⟨false, some (consecErrMsg c e), c⟩
    else ⟨true, none, c⟩
  else if strContains e "test failed" || strContains e "test crashed:" then
    ⟨false, some e, consecutiveErrors⟩
  else ⟨false, some e, consecutiveErrors⟩

/-- internal/api/utils `ValidateTestRunOptions` (lines 126-143): rejects
empty target selection, simultaneous test cases and labels, and a non-empty
commit hash whose byte length is not 40. Returns the error message. -/
def validateTestRunOptions (opts : TestRunOptions) : Option String :=
  if opts.testCaseUUIDs = [] ∧ opts.labels = [] then
    some "either TestCaseUUIDs or Labels must be provided"
  else if opts.testCaseUUIDs ≠ [] ∧ opts.labels ≠ [] then
    some "cannot specify both TestCaseUUIDs and Labels simultaneously"
  else if opts.commitHash ≠ "" ∧ opts.commitHash.utf8ByteSize ≠ 40 then
    some "commit hash must be 40 characters long"
  else none

/-- Go `strings.ReplaceAll(timestamp, "-", "")`: with a one-character
pattern this removes every hyphen. -/
def removeHyphens (s : String) : String :=
  String.mk (s.toList.filter (fun c => c != '-'))

/-- internal/api/utils `GenerateFakeCommitHash` (lines 14-22): "fake" in hex
(66616b65), then the de-hyphenated timestamp, padded with zeros to 40
characters. (Go `strings.Repeat` with the count `40 - len(base)`; the
call sites always pass a 15-character timestamp, so the count is 18.) -/
def generateFakeCommitHash (timestamp : String) : String :=
  let cleanTimestamp := removeHyphens timestamp
  let base := "66616b65" ++ cleanTimestamp
  base ++ String.mk (List.replicate (40 - base.length) '0')

/-- Branch object attached to a start-run request. -/
structure BranchInfo where
  name : String
  commit : String
deriving DecidableEq

/-- internal/api `prepareBranchInfo` (testrigor.go lines 160-193), with
`time.Now().Format("20060102-150405")` abstracted into the `timestamp`
argument. Returns the tracking branch name and the attached branch object:
nothing when a commit hash comes without a branch name or when neither a
branch name nor labels are given; otherwise the branch name is the supplied
one, or labels joined with hyphens plus the timestamp, or a generic
fake-branch placeholder, and the commit is the supplied one or a synthetic
fake hash. -/
def prepareBranchInfo (opts : TestRunOptions) (timestamp : String) :
    String × Option BranchInfo :=
  if opts.commitHash ≠ "" ∧ opts.branchName = "" then ("", none)
  else if opts.branchName = "" ∧ opts.labels = [] then ("", none)
  else
    let branchName :=
      if opts.branchName = "" then
        if opts.labels ≠ [] then
          String.intercalate "-" opts.labels ++ "-" ++ timestamp
        else "fake-branch-" ++ timestamp
      else opts.branchName
    let commit :=
      if opts.commitHash ≠ "" then opts.commitHash
      else generateFakeCommitHash timestamp
    (branchName, some ⟨branchName, commit⟩)

/-- One scripted result of a `GetTestStatus` call: a successfully parsed
snapshot, or the error string the call returned. -/
inductive PollResult where
  | ok (s : TestStatus)
  | fail (e : String)
deriving DecidableEq

/-- An outbound API call performed by a poller. -/
inductive ApiCall where
  | getStatus
  | cancelRun
deriving DecidableEq

/-- The decision `WaitForTestCompletion` takes on one successfully retrieved
snapshot (testrigor.go lines 546-561), in source order: crash counts first,
then the failed-status check, then count-based completion, otherwise keep
polling. -/
inductive SnapshotDecision where
  | crashed (n : Int)
  | failedDone
  | countDone
  | keepPolling
deriving DecidableEq

/-- Snapshot handling of `WaitForTestCompletion` (testrigor.go lines
546-561). -/
def waitSnapshotStep (s : TestStatus) : SnapshotDecision :=
  if s.results.crash > 0 then SnapshotDecision.crashed s.results.crash
  else if s.status = "Failed" ∨ s.results.failed > 0 ∨ s.httpStatusCode = 230 then
    SnapshotDecision.failedDone
  else if checkTestCompletion s then SnapshotDecision.countDone
  else SnapshotDecision.keepPolling

/-- Timeout message of `WaitForTestCompletion`. -/
def timeoutMsg (timeoutMinutes : Nat) : String :=
  s!"timed out waiting for test completion after {timeoutMinutes} minutes"

/-- Crash message of `WaitForTestCompletion`. -/
def crashMsg (n : Int) : String := s!"test crashed: {n} test(s) crashed"

/-- How a modelled poll loop ended: the function returned (with the Go error,
`none` meaning a nil error), or the scripted responses ran out while the
loop would still be polling. -/
inductive WaitOutcome where
  | ret (e : Option String)
  | outOfScript
deriving DecidableEq

/-- Result of running a modelled poll loop: its outcome, the number of
status polls performed, and the trace of API calls. -/
structure LoopResult where
  outcome : WaitOutcome
  polls : Nat
  calls : List ApiCall
deriving DecidableEq

/-- The polling loop of internal/api `WaitForTestCompletion` (testrigor.go
lines 520-565) over a script of poll results. Each iteration first checks
`retries >= maxRetries` (timeout), then performs one `GetTestStatus` call;
a "test crashed:" error is returned as is, other errors go through
`HandleStatusCheckError`; on success the counter is reset to zero and the
snapshot decision of `waitSnapshotStep` is applied. -/
def waitLoop (maxRetries : Nat) (maxConsecutiveErrors : Int) (timeoutMinutes : Nat) :
    List PollResult → Nat → Int → LoopResult
  | [], retries, _ =>
    if retries ≥ maxRetries then
      { outcome := WaitOutcome.ret (some (timeoutMsg timeoutMinutes)), polls := 0, calls := [] }
    else { outcome := WaitOutcome.outOfScript, polls := 0, calls := [] }
  | PollResult.fail e :: rest, retries, consecutiveErrors =>
    if retries ≥ maxRetries then
      { outcome := WaitOutcome.ret (some (timeoutMsg timeoutMinutes)), polls := 0, calls := [] }
    else if strContains e "test crashed:" then
      { outcome := WaitOutcome.ret (some e), polls := 1, calls := [ApiCall.getStatus] }
    else
      let h := handleStatusCheckError e consecutiveErrors maxConsecutiveErrors
      if h.shouldContinue then
        let r := waitLoop maxRetries maxConsecutiveErrors timeoutMinutes rest (retries + 1) h.counter
        { outcome := r.outcome, polls := r.polls + 1, calls := ApiCall.getStatus :: r.calls }
      else
        { outcome := WaitOutcome.ret h.errOut, polls := 1, calls := [ApiCall.getStatus] }
  | PollResult.ok s :: rest, retries, _ =>
    if retries ≥ maxRetries then
      { outcome := WaitOutcome.ret (some (timeoutMsg timeoutMinutes)), polls := 0, calls := [] }
    else
      match waitSnapshotStep s with
      | SnapshotDecision.crashed n =>
        { outcome := WaitOutcome.ret (some (crashMsg n)), polls := 1, calls := [ApiCall.getStatus] }
      | SnapshotDecision.failedDone =>
        { outcome := WaitOutcome.ret none, polls := 1, calls := [ApiCall.getStatus] }
      | SnapshotDecision.countDone =>
        { outcome := WaitOutcome.ret none, polls := 1, calls := [ApiCall.getStatus] }
      | SnapshotDecision.keepPolling =>
        let r := waitLoop maxRetries maxConsecutiveErrors timeoutMinutes rest (retries + 1) 0
        { outcome := r.outcome, polls := r.polls + 1, calls := ApiCall.getStatus :: r.calls }

/-- internal/api `WaitForTestCompletion` (testrigor.go lines 504-566):
computes `maxRetries = timeoutMinutes*60/pollInterval`, runs the poll loop
with a consecutive-error limit of 5, and — via `defer` — always issues a
`CancelTestRun` call before returning; the cancellation's own result
(`cancelResult`) is only logged and never alters the returned outcome. -/
def waitForTestCompletion (pollInterval timeoutMinutes : Nat) (script : List PollResult)
    (cancelResult : Option String) : LoopResult :=
  let maxRetries := timeoutMinutes * 60 / pollInterval
  let r := waitLoop maxRetries 5 timeoutMinutes script 0 0
  { outcome := r.outcome, polls := r.polls, calls := r.calls ++ [ApiCall.cancelRun] }

/-- The decision the orchestrator's `monitorTestExecution` takes on one
successfully retrieved snapshot (test_runner.go lines 173-181): crashes
first, then the string-based `IsComplete`, otherwise keep polling. -/
inductive MonitorDecision where
  | crashed (n : Int)
  | complete
  | keepPolling
deriving DecidableEq

/-- Snapshot handling of `monitorTestExecution` (test_runner.go lines
173-181). -/
def monitorSnapshotStep (s : TestStatus) : MonitorDecision :=
  if hasCrashes s then MonitorDecision.crashed s.results.crash
  else if isComplete s then MonitorDecision.complete
  else MonitorDecision.keepPolling

/-- How the orchestrator's monitor loop ended. The timeout timer is modelled
as firing when the scripted poll ticks run out. -/
inductive MonitorOutcome where
  | timedOut
  | tooManyErrors (e : String)
  | crashed (n : Int)
  | completeOk (s : TestStatus)
deriving DecidableEq

/-- Result of running the modelled monitor loop. -/
structure MonitorResult where
  outcome : MonitorOutcome
  polls : Nat
  calls : List ApiCall
deriving DecidableEq

/-- The polling loop of the orchestrator's `monitorTestExecution`
(test_runner.go lines 151-188) over a script of poll results: an errored
poll increments the consecutive-error counter and aborts at the threshold;
a successful poll resets the counter to zero and applies
`monitorSnapshotStep`. No cancellation call exists anywhere in this loop. -/
def monitorLoop (maxConsecutiveErrors : Int) :
    List PollResult → Int → MonitorResult
  | [], _ => { outcome := MonitorOutcome.timedOut, polls := 0, calls := [] }
  | PollResult.fail e :: rest, consecutiveErrors =>
    if consecutiveErrors + 1 ≥ maxConsecutiveErrors then
      { outcome := MonitorOutcome.tooManyErrors e, polls := 1, calls := [ApiCall.getStatus] }
    else
      let r := monitorLoop maxConsecutiveErrors rest (consecutiveErrors + 1)
      { outcome := r.outcome, polls := r.polls + 1, calls := ApiCall.getStatus :: r.calls }
  | PollResult.ok s :: rest, _ =>
    match monitorSnapshotStep s with
    | MonitorDecision.crashed n =>
      { outcome := MonitorOutcome.crashed n, polls := 1, calls := [ApiCall.getStatus] }
    | MonitorDecision.complete =>
      { outcome := MonitorOutcome.completeOk s, polls := 1, calls := [ApiCall.getStatus] }
    | MonitorDecision.keepPolling =>
      let r := monitorLoop maxConsecutiveErrors rest 0
      { outcome := r.outcome, polls := r.polls + 1, calls := ApiCall.getStatus :: r.calls }

/-- One scripted result of a report fetch attempt (`GetJUnitReport`): the
artifact bytes, or the error string the attempt returned. -/
inductive FetchResult where
  | ok (bytes : String)
  | err (e : String)
deriving DecidableEq

/-- How a modelled report-retrieval loop ended. -/
inductive ReportOutcome where
  | success (bytes : String)
  | savedReport (bytes : String)
  | timedOut (attempts : Nat)
  | notReadyAfter (attempts : Nat)
  | failed (e : String)
  | outOfScript
deriving DecidableEq

/-- internal/api `WaitForJUnitReportWithRetries` (testrigor.go lines
614-639): before each attempt the loop returns a "timed out waiting for
JUnit report after N attempts" error once `retries >= maxRetries`; a
successful fetch returns the artifact; an error mentioning
"still being generated" or "API request failed with status 404" sleeps and
retries; any other error is returned immediately. -/
def waitForJUnitReportWithRetries (maxRetries : Nat) :
    List FetchResult → Nat → ReportOutcome
  | [], retries =>
    if retries ≥ maxRetries then ReportOutcome.timedOut maxRetries
    else ReportOutcome.outOfScript
  | FetchResult.ok b :: _, retries =>
    if retries ≥ maxRetries then ReportOutcome.timedOut maxRetries
    else ReportOutcome.success b
  | FetchResult.err e :: rest, retries =>
    if retries ≥ maxRetries then ReportOutcome.timedOut maxRetries
    else if strContains e "still being generated"
        || strContains e "API request failed with status 404" then
      waitForJUnitReportWithRetries maxRetries rest (retries + 1)
    else ReportOutcome.failed e

/-- The orchestrator's `downloadReport` retry loop (test_runner.go lines
192-230): a bounded `for` loop; an attempt failing with exactly
"report still being generated" sleeps and retries, any other error is
propagated immediately, success saves the artifact; an exhausted budget
yields the distinct "report not ready after N attempts" error. -/
def downloadReport (maxRetries : Nat) : List FetchResult → Nat → ReportOutcome
  | [], i =>
    if i < maxRetries then ReportOutcome.outOfScript
    else ReportOutcome.notReadyAfter maxRetries
  | FetchResult.ok b :: _, i =>
    if i < maxRetries then ReportOutcome.savedReport b
    else ReportOutcome.notReadyAfter maxRetries
  | FetchResult.err e :: rest, i =>
    if i < maxRetries then
      if e == "report still being generated" then downloadReport maxRetries rest (i + 1)
      else ReportOutcome.failed e
    else ReportOutcome.notReadyAfter maxRetries

/-- Whether a scripted poll result makes `WaitForTestCompletion` keep
polling: a successfully parsed snapshot on which `waitSnapshotStep` decides
to continue. -/
def pollKeepsPolling : PollResult → Bool
  | PollResult.ok s => waitSnapshotStep s == SnapshotDecision.keepPolling
  | PollResult.fail _ => false

/-- A snapshot whose counts say the run is finished (total 5, all of them
passed) while the status string still reads "in_progress". -/
def countCompleteSnapshot : TestStatus :=
  { status := "in_progress", detailsURL := "", taskID := "", errors := [],
    results := { total := 5, inQueue := 0, inProgress := 0, failed := 0,
                 passed := 5, canceled := 0, notStarted := 0, crash := 0 },
    httpStatusCode := 200 }

/-- A snapshot with one crashed test whose status string reads "Completed"
and whose counts also satisfy the count-based completion condition. -/
def crashedSnapshot : TestStatus :=
  { status := "Completed", detailsURL := "", taskID := "", errors := [],
    results := { total := 5, inQueue := 0, inProgress := 0, failed := 0,
                 passed := 4, canceled := 0, notStarted := 0, crash := 1 },
    httpStatusCode := 200 }

/-- A snapshot of a run still in flight (one queued, two running), carrying
the in-progress transport code 227. -/
def stillRunningSnapshot : TestStatus :=
  { status := "In progress", detailsURL := "", taskID := "", errors := [],
    results := { total := 5, inQueue := 1, inProgress := 2, failed := 0,
                 passed := 2, canceled := 0, notStarted := 0, crash := 0 },
    httpStatusCode := 227 }

/-- A status body whose `overallResults` carries the same logical counter
under two recognized spellings: `"Total": 3` and `"total": 4`. -/
def bothSpellingsBody : RespBody :=
  { raw := "\x7b\"overallResults\":\x7b\"Total\":3,\"total\":4\x7d\x7d",
    json := Except.ok [("overallResults",
      JsonVal.obj [("Total", JsonVal.num 3), ("total", JsonVal.num 4)])] }

/-- A status body whose `overallResults` carries the total only under the
lowercase spelling `"total": 4`. -/
def lowerOnlyBody : RespBody :=
  { raw := "\x7b\"overallResults\":\x7b\"total\":4\x7d\x7d",
    json := Except.ok [("overallResults", JsonVal.obj [("total", JsonVal.num 4)])] }

/-- A 404 body carrying an embedded crash marker in its `errors` array. -/
def crash404Body : RespBody :=
  { raw := "\x7b\"errors\":[\"CRASH: boom\"]\x7d",
    json := Except.ok [("errors", JsonVal.arr [JsonVal.str "CRASH: boom"])] }

/-- A body that fails to unmarshal as JSON. -/
def unparsableBody : RespBody :=
  { raw := "", json := Except.error "unexpected end of JSON input" }

/-- Run options selecting tests by the single label "smoke", with no branch
name and no commit hash. -/
def smokeOpts : TestRunOptions :=
  { testCaseUUIDs := [], labels := ["smoke"], excludedLabels := [], url := "",
    branchName := "", commitHash := "", customName := "",
    forceCancelPreviousTesting := false, makeXrayReports := false }

theorem string_toList_append (a b : String) : (a ++ b).toList = a.toList ++ b.toList := by
  cases a with
  | mk la => cases b with | mk lb => rfl

theorem charsStartWith_self_append (p r : List Char) : charsStartWith p (p ++ r) = true := by
  induction p with
  | nil => rfl
  | cons c cs ih => simp [charsStartWith, ih]

theorem generateFakeCommitHash_spec (ts : String) (h : (removeHyphens ts).length ≤ 32) :
    (generateFakeCommitHash ts).length = 40
    ∧ charsStartWith "66616b65".toList (generateFakeCommitHash ts).toList = true := by
  have hm : ("66616b65" : String).length = 8 := by decide
  constructor
  · show (("66616b65" ++ removeHyphens ts)
      ++ String.mk (List.replicate (40 - ("66616b65" ++ removeHyphens ts).length) '0')).length = 40
    simp only [String.length_append, String.length_mk, List.length_replicate, hm]
    omega
  · show charsStartWith "66616b65".toList
      ((("66616b65" ++ removeHyphens ts)
        ++ String.mk (List.replicate (40 - ("66616b65" ++ removeHyphens ts).length) '0')).toList) = true
    rw [string_toList_append, string_toList_append, List.append_assoc]
    exact charsStartWith_self_append _ _

/-- C10: `ValidateTestRunOptions` returns an error exactly when explicit test
cases and labels are both given, or neither is given, or a non-empty commit
hash does not have length exactly 40. -/
theorem claim_C10_validate_options (opts : TestRunOptions) :
    (validateTestRunOptions opts).isSome = true ↔
      (opts.testCaseUUIDs ≠ [] ∧ opts.labels ≠ [])
      ∨ (opts.testCaseUUIDs = [] ∧ opts.labels = [])
      ∨ (opts.commitHash ≠ "" ∧ opts.commitHash.utf8ByteSize ≠ 40) := by
  unfold validateTestRunOptions
  split_ifs with h1 h2 h3 <;> simp <;> tauto

/-- C8: with a non-empty label list, no branch name and no commit hash,
`prepareBranchInfo` attaches a branch whose name is the labels joined with
hyphens followed by a hyphen and the timestamp, and whose commit is the
synthetic hash of `GenerateFakeCommitHash`: 40 characters long and starting
with the fixed marker "66616b65" ("fake" in hex). The timestamp hypothesis
pins the 15-character `20060102-150405` layout (14 characters once
de-hyphenated) used at every call site. -/
theorem claim_C8_fake_branch (opts : TestRunOptions) (ts : String)
    (hlabels : opts.labels ≠ []) (hbranch : opts.branchName = "")
    (hcommit : opts.commitHash = "") (hts : (removeHyphens ts).length = 14) :
    prepareBranchInfo opts ts
      = (String.intercalate "-" opts.labels ++ "-" ++ ts,
         some ⟨String.intercalate "-" opts.labels ++ "-" ++ ts, generateFakeCommitHash ts⟩)
    ∧ (generateFakeCommitHash ts).length = 40
    ∧ charsStartWith "66616b65".toList (generateFakeCommitHash ts).toList = true := by
  refine ⟨?_, (generateFakeCommitHash_spec ts (by omega)).1,
    (generateFakeCommitHash_spec ts (by omega)).2⟩
  simp [prepareBranchInfo, hbranch, hcommit, hlabels]

/-- Closed witness for C8 at labels `["smoke"]` and a concrete timestamp. -/
theorem claim_C8_fake_branch_witness :
    (["smoke"] : List String) ≠ []
    ∧ (removeHyphens "20251011-120000").length = 14
    ∧ prepareBranchInfo smokeOpts "20251011-120000"
        = (String.intercalate "-" ["smoke"] ++ "-" ++ "20251011-120000",
           some ⟨String.intercalate "-" ["smoke"] ++ "-" ++ "20251011-120000",
                 generateFakeCommitHash "20251011-120000"⟩) :=
  ⟨by decide, by decide,
   (claim_C8_fake_branch smokeOpts "20251011-120000" (by decide) rfl rfl (by decide)).1⟩

/-- C1 (failing input): on a body carrying both `"Total": 3` and
`"total": 4`, the client's `parseStatusBody` SUMS the spelling variants and
reports a total of 7, while the status interpreter's `ParseTestStatus` reads
only the canonical `"Total"` (3 here) and reads 0 when only the lowercase
spelling is present — so neither cited parser both avoids double-counting
and recognizes every known spelling. -/
theorem claim_C1_count_parsing_double_counts :
    (parseStatusBody bothSpellingsBody emptyTestStatus).results.total = 7
    ∧ ((parseTestStatusSI 200 bothSpellingsBody).1.map fun t => t.results.total) = some 3
    ∧ ((parseTestStatusSI 200 lowerOnlyBody).1.map fun t => t.results.total) = some 0
    ∧ (parseStatusBody lowerOnlyBody emptyTestStatus).results.total = 4 := by
  decide

/-- C2: for every successfully retrieved snapshot whose crash count is
positive, BOTH pollers terminate on that very poll with the crash outcome
citing the number of crashed tests — universally in the snapshot, hence
regardless of the status string and even when the failed-status or
count-based-completion conditions hold as well, which shows the crash check
is evaluated first. -/
theorem claim_C2_crash_priority (maxR : Nat) (maxE : Int) (tm retries : Nat) (ce : Int)
    (s : TestStatus) (rest : List PollResult)
    (hr : retries < maxR) (hcrash : s.results.crash > 0) :
    waitLoop maxR maxE tm (PollResult.ok s :: rest) retries ce
      = { outcome := WaitOutcome.ret (some (crashMsg s.results.crash)), polls := 1,
          calls := [ApiCall.getStatus] }
    ∧ monitorLoop maxE (PollResult.ok s :: rest) ce
      = { outcome := MonitorOutcome.crashed s.results.crash, polls := 1,
          calls := [ApiCall.getStatus] } := by
  have hnr : ¬ retries ≥ maxR := Nat.not_le.mpr hr
  have hstep : waitSnapshotStep s = SnapshotDecision.crashed s.results.crash := by
    unfold waitSnapshotStep
    rw [if_pos hcrash]
  have hh : hasCrashes s = true := by
    simp [hasCrashes, hcrash]
  have hm : monitorSnapshotStep s = MonitorDecision.crashed s.results.crash := by
    unfold monitorSnapshotStep
    rw [if_pos hh]
  exact ⟨by simp [waitLoop, hnr, hstep], by simp [monitorLoop, hm]⟩

/-- Closed witness for C2: one poll on a crashed snapshot whose status
string reads "Completed" and whose counts also satisfy count-based
completion; the first poll still ends in the crash outcome. -/
theorem claim_C2_crash_priority_witness :
    (0 : Nat) < 6 ∧ crashedSnapshot.results.crash > 0
    ∧ waitLoop 6 5 1 [PollResult.ok crashedSnapshot] 0 0
        = { outcome := WaitOutcome.ret (some (crashMsg crashedSnapshot.results.crash)),
            polls := 1, calls := [ApiCall.getStatus] } :=
  ⟨by decide, by decide,
   (claim_C2_crash_priority 6 5 1 0 0 crashedSnapshot [] (by decide) (by decide)).1⟩

/-- C3 (counterexample): on a snapshot with total 5 and queued =
in-progress = not-started = 0 but status string "in_progress", the
orchestrator's monitor loop does NOT transition to a terminal state: it
keeps polling (a second scripted poll is consumed) and, when the script runs
out, ends in the timeout of its timer — refuting the claim for the
`monitorTestExecution` poller it cites. -/
theorem claim_C3_counterexample :
    checkTestCompletion countCompleteSnapshot = true
    ∧ (monitorLoop 5 [PollResult.ok countCompleteSnapshot,
        PollResult.ok countCompleteSnapshot] 0).polls = 2
    ∧ (monitorLoop 5 [PollResult.ok countCompleteSnapshot] 0).outcome
        = MonitorOutcome.timedOut := by
  decide

/-- C3 (amended): in the api-package `WaitForTestCompletion` poller, every
successfully retrieved snapshot satisfying the count-based completion
condition (total > 0, queued = in-progress = not-started = 0) makes that
very poll the last one: the loop performs exactly one more status poll and
returns, regardless of the snapshot's status string. -/
theorem claim_C3_amended_wait_count_done (maxR : Nat) (maxE : Int) (tm retries : Nat)
    (ce : Int) (s : TestStatus) (rest : List PollResult)
    (hr : retries < maxR) (hc : checkTestCompletion s = true) :
    (waitLoop maxR maxE tm (PollResult.ok s :: rest) retries ce).polls = 1
    ∧ ∃ e, (waitLoop maxR maxE tm (PollResult.ok s :: rest) retries ce).outcome
        = WaitOutcome.ret e := by
  have hnr : ¬ retries ≥ maxR := Nat.not_le.mpr hr
  have hne : waitSnapshotStep s ≠ SnapshotDecision.keepPolling := by
    unfold waitSnapshotStep
    split_ifs <;> simp_all
  cases hstep : waitSnapshotStep s with
  | crashed n =>
    exact ⟨by simp [waitLoop, hnr, hstep], some (crashMsg n), by simp [waitLoop, hnr, hstep]⟩
  | failedDone =>
    exact ⟨by simp [waitLoop, hnr, hstep], none, by simp [waitLoop, hnr, hstep]⟩
  | countDone =>
    exact ⟨by simp [waitLoop, hnr, hstep], none, by simp [waitLoop, hnr, hstep]⟩
  | keepPolling => exact absurd hstep hne

/-- Closed witness for the amended C3: the count-complete snapshot with
status string "in_progress" ends the wait loop on its first poll. -/
theorem claim_C3_amended_wait_count_done_witness :
    (0 : Nat) < 6 ∧ checkTestCompletion countCompleteSnapshot = true
    ∧ (waitLoop 6 5 1 [PollResult.ok countCompleteSnapshot] 0 0).polls = 1 :=
  ⟨by decide, by decide,
   (claim_C3_amended_wait_count_done 6 5 1 0 0 countCompleteSnapshot []
     (by decide) (by decide)).1⟩

/-- C4 (counterexample): the status classifier reports the in-progress
transport code 227 as the error "status 227"; on that very error, the cited
`HandleStatusCheckError` does not reset the consecutive-error counter to
zero — it INCREMENTS it from 0 to 1 — and five such in-progress errors in a
row reach the too-many-consecutive-errors threshold. -/
theorem claim_C4_counterexample :
    (interpretResponse 227 unparsableBody).2 = some "status 227"
    ∧ handleStatusCheckError "status 227" 0 5 = ⟨true, none, 1⟩
    ∧ (handleStatusCheckError "status 227" 0 5).counter ≠ 0
    ∧ handleStatusCheckError "status 227" 4 5
        = ⟨false, some (consecErrMsg 5 "status 227"), 5⟩ := by
  decide

/-- C4 (amended): a successfully parsed status response — which is how the
in-progress transport codes reach `WaitForTestCompletion`, since
`ParseTestStatus` does not fail on them — resets the consecutive-error
counter to zero and keeps polling whenever the snapshot is non-terminal;
but when an in-progress code surfaces as a status-check error string,
`HandleStatusCheckError` increments the counter toward the
too-many-consecutive-errors threshold instead of resetting it, and every
other status-check error aborts polling immediately with the counter
untouched. -/
theorem claim_C4_amended_error_counter (maxR : Nat) (maxE ce : Int) (tm retries : Nat)
    (s : TestStatus) (e : String) (rest : List PollResult)
    (hr : retries < maxR)
    (hstep : waitSnapshotStep s = SnapshotDecision.keepPolling)
    (hin : (strContains e "status 227" || strContains e "status 228") = true) :
    waitLoop maxR maxE tm (PollResult.ok s :: rest) retries ce
      = { outcome := (waitLoop maxR maxE tm rest (retries + 1) 0).outcome,
          polls := (waitLoop maxR maxE tm rest (retries + 1) 0).polls + 1,
          calls := ApiCall.getStatus :: (waitLoop maxR maxE tm rest (retries + 1) 0).calls }
    ∧ handleStatusCheckError e ce maxE
        = (if ce + 1 ≥ maxE then ⟨false, some (consecErrMsg (ce + 1) e), ce + 1⟩
           else ⟨true, none, ce + 1⟩)
    ∧ (∀ (e2 : String) (ce2 : Int),
        (strContains e2 "status 227" || strContains e2 "status 228") = false →
        handleStatusCheckError e2 ce2 maxE = ⟨false, some e2, ce2⟩) := by
  have hnr : ¬ retries ≥ maxR := Nat.not_le.mpr hr
  refine ⟨by simp [waitLoop, hnr, hstep], ?_, ?_⟩
  · unfold handleStatusCheckError
    rw [if_pos hin]
  · intro e2 ce2 h2
    unfold handleStatusCheckError
    rw [if_neg (by simp [h2])]
    split_ifs <;> rfl

/-- Closed witness for the amended C4 at the error "status 227" with
counter 0 and threshold 5. -/
theorem claim_C4_amended_error_counter_witness :
    (0 : Nat) < 6
    ∧ waitSnapshotStep stillRunningSnapshot = SnapshotDecision.keepPolling
    ∧ (strContains "status 227" "status 227" || strContains "status 227" "status 228") = true
    ∧ handleStatusCheckError "status 227" 0 5
        = (if (0 : Int) + 1 ≥ 5
           then ⟨false, some (consecErrMsg (0 + 1) "status 227"), 0 + 1⟩
           else ⟨true, none, 0 + 1⟩) :=
  ⟨by decide, by decide, by decide,
   (claim_C4_amended_error_counter 6 5 0 1 0 stillRunningSnapshot "status 227" []
     (by decide) (by decide) (by decide)).2.1⟩

theorem monitor_calls_only_getStatus (maxE : Int) :
    ∀ (script : List PollResult) (ce : Int) (c : ApiCall),
      c ∈ (monitorLoop maxE script ce).calls → c = ApiCall.getStatus := by
  intro script
  induction script with
  | nil => intro ce c h; simp [monitorLoop] at h
  | cons r rest ih =>
    intro ce c h
    cases r with
    | fail e =>
      by_cases hth : ce + 1 ≥ maxE
      · simp [monitorLoop, hth] at h
        exact h
      · simp [monitorLoop, hth] at h
        rcases h with h | h
        · exact h
        · exact ih _ _ h
    | ok s =>
      cases hms : monitorSnapshotStep s with
      | crashed n =>
        simp [monitorLoop, hms] at h
        exact h
      | complete =>
        simp [monitorLoop, hms] at h
        exact h
      | keepPolling =>
        simp [monitorLoop, hms] at h
        rcases h with h | h
        · exact h
        · exact ih _ _ h

/-- C5 (counterexample): the orchestrator's monitor loop reaches the
terminal crash outcome without ever issuing a cancellation request — no
cancel call appears in its trace — refuting the claim for the
`monitorTestExecution` poller it cites. -/
theorem claim_C5_counterexample :
    (monitorLoop 5 [PollResult.ok crashedSnapshot] 0).outcome = MonitorOutcome.crashed 1
    ∧ ApiCall.cancelRun ∉ (monitorLoop 5 [PollResult.ok crashedSnapshot] 0).calls := by
  decide

/-- C5 (amended): the api-package `WaitForTestCompletion` issues, via
`defer`, a best-effort cancellation after every exit of its loop — the last
API call of every run is the cancel — and the result of that cancellation
never alters the returned outcome (the run is identical whatever the
cancellation returned); the orchestrator's `monitorTestExecution`, in
contrast, never issues any cancellation call. -/
theorem claim_C5_amended_cancellation (pollInterval timeoutMinutes : Nat)
    (script : List PollResult) (cancelResult : Option String) (maxE ce : Int) :
    (waitForTestCompletion pollInterval timeoutMinutes script cancelResult).calls.getLast?
        = some ApiCall.cancelRun
    ∧ waitForTestCompletion pollInterval timeoutMinutes script cancelResult
        = waitForTestCompletion pollInterval timeoutMinutes script none
    ∧ ApiCall.cancelRun ∉ (monitorLoop maxE script ce).calls := by
  refine ⟨?_, rfl, ?_⟩
  · simp [waitForTestCompletion, List.getLast?_concat]
  · intro h
    exact absurd (monitor_calls_only_getStatus maxE script ce _ h) (by simp)

theorem notReady_matches :
    (strContains "Report still being generated" "still being generated"
      || strContains "Report still being generated" "API request failed with status 404")
      = true := by
  decide

theorem waitReport_step_notReady (maxR retries : Nat) (script : List FetchResult)
    (hr : retries < maxR) :
    waitForJUnitReportWithRetries maxR
        (FetchResult.err "Report still being generated" :: script) retries
      = waitForJUnitReportWithRetries maxR script (retries + 1) := by
  have h1 : ¬ retries ≥ maxR := Nat.not_le.mpr hr
  simp only [waitForJUnitReportWithRetries, h1, if_false, notReady_matches, if_true]

theorem waitReport_skip_notReady (maxR : Nat) (n : Nat) :
    ∀ (script : List FetchResult) (retries : Nat), retries + n ≤ maxR →
      waitForJUnitReportWithRetries maxR
          (List.replicate n (FetchResult.err "Report still being generated") ++ script) retries
        = waitForJUnitReportWithRetries maxR script (retries + n) := by
  induction n with
  | zero => intro script retries _; simp
  | succ m ih =>
    intro script retries h
    rw [List.replicate_succ, List.cons_append,
      waitReport_step_notReady maxR retries _ (by omega),
      ih script (retries + 1) (by omega)]
    congr 1
    omega

theorem waitReport_budget_exhausted (maxR : Nat) :
    ∀ (script : List FetchResult) (retries : Nat), retries ≥ maxR →
      waitForJUnitReportWithRetries maxR script retries = ReportOutcome.timedOut maxR := by
  intro script retries h
  cases script with
  | nil => simp [waitForJUnitReportWithRetries, h]
  | cons r rest =>
    cases r with
    | ok b => simp [waitForJUnitReportWithRetries, h]
    | err e => simp [waitForJUnitReportWithRetries, h]

theorem downloadReport_step_notReady (maxR i : Nat) (script : List FetchResult)
    (hi : i < maxR) :
    downloadReport maxR (FetchResult.err "report still being generated" :: script) i
      = downloadReport maxR script (i + 1) := by
  simp only [downloadReport, hi, if_true, beq_self_eq_true]

theorem downloadReport_skip_notReady (maxR : Nat) (n : Nat) :
    ∀ (script : List FetchResult) (i : Nat), i + n ≤ maxR →
      downloadReport maxR
          (List.replicate n (FetchResult.err "report still being generated") ++ script) i
        = downloadReport maxR script (i + n) := by
  induction n with
  | zero => intro script i _; simp
  | succ m ih =>
    intro script i h
    rw [List.replicate_succ, List.cons_append,
      downloadReport_step_notReady maxR i _ (by omega),
      ih script (i + 1) (by omega)]
    congr 1
    omega

theorem downloadReport_budget_exhausted (maxR : Nat) :
    ∀ (script : List FetchResult) (i : Nat), ¬ i < maxR →
      downloadReport maxR script i = ReportOutcome.notReadyAfter maxR := by
  intro script i h
  cases script with
  | nil => simp [downloadReport, h]
  | cons r rest =>
    cases r with
    | ok b => simp [downloadReport, h]
    | err e => simp [downloadReport, h]

/-- C6: for both report retrievers — the api-package
`WaitForJUnitReportWithRetries` and the orchestrator's `downloadReport` —
N not-ready responses followed by a success, with N below the retry budget,
yield the artifact; a full budget of not-ready responses yields the
distinct budget-exhausted error naming the attempt count (never a false
success, whatever follows); and a genuine error (one matching neither
loop's not-ready test) aborts immediately and is propagated. -/
theorem claim_C6_report_retry (maxR N : Nat) (b g : String) (rest : List FetchResult)
    (hN : N < maxR)
    (hg1 : strContains g "still being generated" = false)
    (hg2 : strContains g "API request failed with status 404" = false)
    (hg3 : (g == "report still being generated") = false) :
    (waitForJUnitReportWithRetries maxR
       (List.replicate N (FetchResult.err "Report still being generated")
         ++ FetchResult.ok b :: rest) 0 = ReportOutcome.success b)
    ∧ (waitForJUnitReportWithRetries maxR
       (List.replicate maxR (FetchResult.err "Report still being generated") ++ rest) 0
         = ReportOutcome.timedOut maxR)
    ∧ (waitForJUnitReportWithRetries maxR
       (List.replicate N (FetchResult.err "Report still being generated")
         ++ FetchResult.err g :: rest) 0 = ReportOutcome.failed g)
    ∧ (downloadReport maxR
       (List.replicate N (FetchResult.err "report still being generated")
         ++ FetchResult.ok b :: rest) 0 = ReportOutcome.savedReport b)
    ∧ (downloadReport maxR
       (List.replicate maxR (FetchResult.err "report still being generated") ++ rest) 0
         = ReportOutcome.notReadyAfter maxR)
    ∧ (downloadReport maxR
       (List.replicate N (FetchResult.err "report still being generated")
         ++ FetchResult.err g :: rest) 0 = ReportOutcome.failed g) := by
  have hNle : 0 + N ≤ maxR := by omega
  have hNlt : ¬ N ≥ maxR := Nat.not_le.mpr hN
  refine ⟨?_, ?_, ?_, ?_, ?_, ?_⟩
  · rw [waitReport_skip_notReady maxR N _ 0 hNle]
    simp [waitForJUnitReportWithRetries, hNlt]
  · rw [waitReport_skip_notReady maxR maxR _ 0 (by omega)]
    exact waitReport_budget_exhausted maxR rest (0 + maxR) (by omega)
  · rw [waitReport_skip_notReady maxR N _ 0 hNle]
    simp [waitForJUnitReportWithRetries, hNlt, hg1, hg2]
  · rw [downloadReport_skip_notReady maxR N _ 0 hNle]
    simp [downloadReport, Nat.zero_add, hN]
  · rw [downloadReport_skip_notReady maxR maxR _ 0 (by omega)]
    exact downloadReport_budget_exhausted maxR rest (0 + maxR) (by omega)
  · rw [downloadReport_skip_notReady maxR N _ 0 hNle]
    simp [downloadReport, hN, hg3]

/-- Closed witness for C6 at budget 3, one not-ready response, artifact
"xml" and genuine error "boom". -/
theorem claim_C6_report_retry_witness :
    1 < 3
    ∧ strContains "boom" "still being generated" = false
    ∧ strContains "boom" "API request failed with status 404" = false
    ∧ ("boom" == "report still being generated") = false
    ∧ waitForJUnitReportWithRetries 3
        (List.replicate 1 (FetchResult.err "Report still being generated")
          ++ FetchResult.ok "xml" :: []) 0 = ReportOutcome.success "xml" :=
  ⟨by decide, by decide, by decide, by decide,
   (claim_C6_report_retry 3 1 "xml" "boom" [] (by decide) (by decide) (by decide)
     (by decide)).1⟩

/-- C7 (counterexample): on a 404 response whose body's errors array holds
the string "CRASH: boom", the primitive client classifier `parseTestStatus`
returns the not-found error without inspecting the body — while the
StatusInterpreter turns the same response into a test-crash error — so the
claim is false for the `parseTestStatus` classifier it cites. -/
theorem claim_C7_counterexample :
    parseTestStatusClient 404 crash404Body = Except.error "test not found or not ready"
    ∧ (interpretResponse 404 crash404Body).2 = some "test crashed: CRASH: boom"
    ∧ "test not found or not ready" ≠ "test crashed: CRASH: boom" :=
  ⟨rfl, by decide, by decide⟩

/-- C7 (amended): the StatusInterpreter's `InterpretResponse` inspects the
404 body before deciding — a string entry containing "CRASH:" in the body's
errors array yields a test-crash error, and only otherwise does the 404
become a not-found/API error — whereas the primitive client's
`parseTestStatus` classifies every 404 as "test not found or not ready"
without inspecting the body. -/
theorem claim_C7_amended_404_classification (body : RespBody)
    (data : List (String × JsonVal)) (errs : List JsonVal) (s : String)
    (hjson : body.json = Except.ok data)
    (herrs : List.lookup "errors" data = some (JsonVal.arr errs))
    (hfound : firstCrashString errs = some s) :
    interpretResponse 404 body = (some body, some ("test crashed: " ++ s))
    ∧ (∀ b2 : RespBody, crashFrom404 b2 = none →
        interpretResponse 404 b2 = createAPIError 404 b2)
    ∧ (∀ b2 : RespBody, parseTestStatusClient 404 b2
        = Except.error "test not found or not ready") := by
  refine ⟨?_, ?_, ?_⟩
  · have hcf : crashFrom404 body = some s := by
      cases errs with
      | nil => simp [firstCrashString] at hfound
      | cons j js =>
        simp only [crashFrom404, hjson, herrs, List.isEmpty_cons, Bool.false_eq_true,
          if_false]
        exact hfound
    simp [interpretResponse, hcf]
  · intro b2 h2
    simp [interpretResponse, h2]
  · intro b2
    rfl

/-- Closed witness for the amended C7 at the crash-marked 404 body. -/
theorem claim_C7_amended_404_classification_witness :
    crash404Body.json = Except.ok [("errors", JsonVal.arr [JsonVal.str "CRASH: boom"])]
    ∧ firstCrashString [JsonVal.str "CRASH: boom"] = some "CRASH: boom"
    ∧ interpretResponse 404 crash404Body
        = (some crash404Body, some ("test crashed: " ++ "CRASH: boom")) :=
  ⟨rfl, rfl,
   (claim_C7_amended_404_classification crash404Body
     [("errors", JsonVal.arr [JsonVal.str "CRASH: boom"])]
     [JsonVal.str "CRASH: boom"] "CRASH: boom" rfl rfl rfl).1⟩

theorem waitLoop_all_inprogress (maxE : Int) (tm maxR : Nat) :
    ∀ (script : List PollResult) (retries : Nat) (ce : Int),
      (∀ r ∈ script, pollKeepsPolling r = true) →
      maxR ≤ retries + script.length →
      waitLoop maxR maxE tm script retries ce
        = { outcome := WaitOutcome.ret (some (timeoutMsg tm)),
            polls := maxR - retries,
            calls := List.replicate (maxR - retries) ApiCall.getStatus } := by
  intro script
  induction script with
  | nil =>
    intro retries ce _ hlen
    have h : retries ≥ maxR := by simpa using hlen
    have h0 : maxR - retries = 0 := by omega
    simp [waitLoop, h, h0]
  | cons r rest ih =>
    intro retries ce hall hlen
    by_cases hr : retries ≥ maxR
    · have h0 : maxR - retries = 0 := by omega
      cases r with
      | ok s => simp [waitLoop, hr, h0]
      | fail e => simp [waitLoop, hr, h0]
    · have hkeep := hall r (List.mem_cons_self r rest)
      cases r with
      | fail e => simp [pollKeepsPolling] at hkeep
      | ok s =>
        have hs : waitSnapshotStep s = SnapshotDecision.keepPolling := by
          simpa [pollKeepsPolling] using hkeep
        have hrec := ih (retries + 1) 0
          (fun x hx => hall x (List.mem_cons_of_mem _ hx))
          (by simp at hlen ⊢; omega)
        have he : maxR - retries = (maxR - (retries + 1)) + 1 := by omega
        rw [he]
        simp [waitLoop, hr, hs, hrec, List.replicate_succ]

/-- C9: when every scripted poll keeps the run in progress and the script is
at least as long as the retry budget, `WaitForTestCompletion` performs
exactly `timeoutMinutes * 60 / pollInterval` status polls and returns the
timeout error naming the configured duration in minutes (followed only by
the deferred cancel call). -/
theorem claim_C9_timeout_bound (pollInterval timeoutMinutes : Nat) (script : List PollResult)
    (hall : ∀ r ∈ script, pollKeepsPolling r = true)
    (hlen : timeoutMinutes * 60 / pollInterval ≤ script.length) :
    waitForTestCompletion pollInterval timeoutMinutes script none
      = { outcome := WaitOutcome.ret (some (timeoutMsg timeoutMinutes)),
          polls := timeoutMinutes * 60 / pollInterval,
          calls := List.replicate (timeoutMinutes * 60 / pollInterval) ApiCall.getStatus
            ++ [ApiCall.cancelRun] } := by
  have h := waitLoop_all_inprogress 5 timeoutMinutes (timeoutMinutes * 60 / pollInterval)
    script 0 0 hall (by simpa using hlen)
  simp [waitForTestCompletion, h]

/-- Closed witness for C9: timeout 1 minute, poll interval 10 seconds, six
scripted in-progress polls — outcome TimedOut after exactly 6 polls. -/
theorem claim_C9_timeout_bound_witness :
    (∀ r ∈ List.replicate 6 (PollResult.ok stillRunningSnapshot), pollKeepsPolling r = true)
    ∧ (1 : Nat) * 60 / 10 ≤ (List.replicate 6 (PollResult.ok stillRunningSnapshot)).length
    ∧ waitForTestCompletion 10 1 (List.replicate 6 (PollResult.ok stillRunningSnapshot)) none
        = { outcome := WaitOutcome.ret (some (timeoutMsg 1)), polls := 6,
            calls := List.replicate 6 ApiCall.getStatus ++ [ApiCall.cancelRun] } :=
  ⟨by decide, by decide,
   claim_C9_timeout_bound 10 1 (List.replicate 6 (PollResult.ok stillRunningSnapshot))
     (by decide) (by decide)⟩
